import Mathlib

/-!
Shallow embedding of the FANGS version control core (src/fangs/core.py).

Bytes are modelled as `List Nat` (one entry per byte); object ids, paths and
ref names are `String`. The SHA-1 digest itself is kept abstract as a
parameter `hashFn`, since every claim here is about the bytes that are hashed
and stored, not about the digest function.
-/

/-- Bytes of an ASCII string, one `Nat` per character code. -/
def str_bytes (s : String) : List Nat := s.toList.map Char.toNat

/-- Decode bytes back to a string (models `bytes.decode()` on ASCII data). -/
def bytes_to_str (bs : List Nat) : String := String.mk (bs.map Char.ofNat)

/-- Python `str.split()` with no separator: split on runs of whitespace and
drop empty tokens. Helper recursion carrying the current (reversed) token. -/
def split_ws_aux : List Char → List Char → List String
  | [], acc => if acc = [] then [] else [String.mk acc.reverse]
  | ch :: rest, acc =>
    if ch.isWhitespace then
      if acc = [] then split_ws_aux rest []
      else String.mk acc.reverse :: split_ws_aux rest []
    else split_ws_aux rest (ch :: acc)

/-- Python `str.split()` used by `read_object` on the header and by `add` on
index lines. -/
def split_ws (s : String) : List String := split_ws_aux s.toList []

/-- Header and payload built by `hash_object` (core.py lines 87-88): the
f-string concatenates `obj_type` and `len(data)` with no separator, then a
NUL byte, then the payload. -/
def full_data (objType : String) (data : List Nat) : List Nat :=
  str_bytes (objType ++ toString data.length) ++ [0] ++ data

/-- Canonical object bytes as the spec words them (second definition for the
refinement comparison): the kind, a single space, the decimal payload length,
a NUL byte, then the payload. -/
def spec_canonical_bytes (kind : String) (payload : List Nat) : List Nat :=
  str_bytes (kind ++ " " ++ toString payload.length) ++ [0] ++ payload

/-- `hash_object` (core.py lines 65-110): build the full data, hash it, and
store the bytes under the id unless that id is already present. Returns the
id and the updated object store. -/
def hash_object (hashFn : List Nat → String) (store : List (String × List Nat))
    (data : List Nat) (objType : String) : String × List (String × List Nat) :=
  let sha1 := hashFn (full_data objType data)
  if store.any (fun p => p.1 == sha1) then (sha1, store)
  else (sha1, store ++ [(sha1, full_data objType data)])

/-- `read_object` parsing (core.py lines 375-413) applied to the stored bytes
of one object: find the first NUL, decode and whitespace-split the header,
unpack it into an object type and a size, check the type, and return the
content bytes. The json decoding of tree and commit payloads is modelled by
the record layer below; this function captures the byte-level parsing. -/
def read_stored_object (obj : List Nat) (expectedType : String) :
    Except String (List Nat) :=
  let headerBytes := obj.takeWhile (fun b => b != 0)
  if headerBytes.length = obj.length then
    Except.error "ValueError: subsection not found"
  else
    match split_ws (bytes_to_str headerBytes) with
    | [objType, _size] =>
        if objType ≠ expectedType then
          Except.error ("Expected " ++ expectedType ++ ", got " ++ objType)
        else if objType = "tree" ∨ objType = "commit" then
          Except.ok (obj.drop (headerBytes.length + 1))
        else if objType = "blob" then
          Except.ok (obj.drop (headerBytes.length + 1))
        else
          Except.error ("Unknown object type: " ++ objType)
    | _ => Except.error "ValueError: not enough values to unpack"

/-- `read_object` (core.py lines 375-413): look the sharded object file up by
id, then parse it. A missing file raises FileNotFoundError. -/
def read_object (store : List (String × List Nat)) (sha1 expectedType : String) :
    Except String (List Nat) :=
  match store.lookup sha1 with
  | some obj => read_stored_object obj expectedType
  | none => Except.error ("Object " ++ sha1 ++ " not found")

/-- Write one file in the repository metadata directory, replacing its content
when the name already exists. Files are kept as an association list from the
path under `fangs/` to the content. -/
def set_file (files : List (String × String)) (name content : String) :
    List (String × String) :=
  if files.any (fun p => p.1 == name) then
    files.map (fun p => if p.1 = name then (name, content) else p)
  else files ++ [(name, content)]

/-- `update_ref` (core.py lines 286-319): writes `sha1` to the file named by
`ref` under the metadata directory. There is no symbolic dereference step. -/
def update_ref (files : List (String × String)) (ref sha1 : String) :
    List (String × String) :=
  set_file files ref sha1

/-- The ref advancement step of `commit` (core.py line 230): `update_ref` is
called with the literal name HEAD. -/
def commit_advance_ref (files : List (String × String)) (commitSha : String) :
    List (String × String) :=
  update_ref files "HEAD" commitSha

/-- `get_ref` (core.py lines 251-284): read the ref file, follow symbolic
content of the form `ref: target` recursively. Fuel bounds the recursion. -/
def get_ref (files : List (String × String)) : Nat → String → Option String
  | 0, _ => none
  | fuel + 1, ref =>
    match files.lookup ref with
    | none => none
    | some content =>
      if content.startsWith "ref: " then get_ref files fuel (content.drop 5)
      else some content

/-- The index rewrite loop of `add` (core.py lines 160-176): every existing
line whose `line.split()[1]` equals the new relative path is replaced by the
new entry; if no line matched, the new entry is appended. -/
def upsert_lines (lines : List String) (sha1 relPath : String) : List String :=
  let entry := sha1 ++ " " ++ relPath
  let rewritten := lines.map (fun l =>
    if (split_ws l).get? 1 = some relPath then entry else l)
  if lines.any (fun l => (split_ws l).get? 1 == some relPath) then rewritten
  else rewritten ++ [entry]

/-- The index update of `add` (core.py lines 148-180): the index file is
opened for reading; when it does not exist the open raises FileNotFoundError,
an OSError, which `add` re-raises as its OSError. -/
def add_update_index (indexFile : Option (List String)) (sha1 relPath : String) :
    Except String (List String) :=
  match indexFile with
  | none => Except.error "Error adding file to index: FileNotFoundError"
  | some lines => Except.ok (upsert_lines lines sha1 relPath)

/-- Split a list of characters at the first space, returning the part before
it and, when a space exists, the part after it. -/
def break_at_space : List Char → List Char × Option (List Char)
  | [] => ([], none)
  | ch :: rest =>
    if ch = Char.ofNat 32 then ([], some rest)
    else
      let r := break_at_space rest
      (ch :: r.1, r.2)

/-- The path component of an index line under the documented format: Python
`line.split(' ', 1)[1]`, used by `commit` (core.py line 211). The first space
splits id from path; the remainder is the path verbatim. Lines without a
space map to the empty string (Python would raise IndexError there). -/
def path_of_index_line (line : String) : String :=
  match break_at_space line.toList with
  | (_, some rest) => String.mk rest
  | (_, none) => ""

/-- A decoded commit record. Python commit dicts carry either the key
`parent` (regular commits, core.py lines 218-224) or the key `parents`
(merge commits, core.py lines 708-714); both possible keys are kept as
options to model `commit_data.get` faithfully. -/
structure CommitData where
  tree : String
  parent : Option String
  parents : Option (List String)
  author : String
  timestamp : String
  message : String
deriving DecidableEq

/-- The dict built by `commit` (core.py lines 218-224): key `parent`, never
`parents`. -/
def mk_commit_data (tr : String) (par : Option String) (au ts msg : String) :
    CommitData :=
  ⟨tr, par, none, au, ts, msg⟩

/-- The dict built by `create_merge_commit` (core.py lines 708-714): key
`parents` holding the two parents, never `parent`. -/
def mk_merge_commit_data (tr cur other au ts msg : String) : CommitData :=
  ⟨tr, none, some [cur, other], au, ts, msg⟩

/-- `commit_data.get('parent')` on the commit stored under `sha` in a store
of decoded commit records. -/
def parent_of (store : List (String × CommitData)) (sha : String) :
    Option String :=
  (store.lookup sha).bind (fun c => c.parent)

/-- The traversal loop shared by `get_commit_chain` (core.py lines 610-613)
and `log` (core.py lines 349-361): follow only the `parent` key. Fuel bounds
the loop. -/
def chain_loop (store : List (String × CommitData)) :
    Nat → Option String → List String
  | 0, _ => []
  | _ + 1, none => []
  | fuel + 1, some c => c :: chain_loop store fuel (parent_of store c)

/-- `get_commit_chain` (core.py lines 596-616): collect the chain newest
first, then reverse it to oldest first. -/
def get_commit_chain (store : List (String × CommitData)) (fuel : Nat)
    (commit : String) : List String :=
  (chain_loop store fuel (some commit)).reverse

/-- The sequence of commits `log` visits (core.py lines 345-372), starting
from an already resolved commit id. -/
def log_visits (store : List (String × CommitData)) (fuel : Nat)
    (start : String) : List String :=
  chain_loop store fuel (some start)

/-- `find_merge_base` (core.py lines 573-594): compute both chains (oldest
first) and return the first element of the first chain that occurs in the
second chain. -/
def find_merge_base (store : List (String × CommitData)) (fuel : Nat)
    (commit1 commit2 : String) : Option String :=
  (get_commit_chain store fuel commit1).find?
    (fun c => (get_commit_chain store fuel commit2).contains c)

/-- Escape one character the way `json.dumps` escapes quote and backslash. -/
def json_escape_char (c : Char) : String :=
  if c = Char.ofNat 34 then String.mk [Char.ofNat 92, Char.ofNat 34]
  else if c = Char.ofNat 92 then String.mk [Char.ofNat 92, Char.ofNat 92]
  else String.singleton c

/-- Escape a string for json emission. -/
def json_escape (s : String) : String :=
  String.join (s.toList.map json_escape_char)

/-- A json string literal. -/
def json_str (s : String) : String :=
  String.mk [Char.ofNat 34] ++ json_escape s ++ String.mk [Char.ofNat 34]

/-- `json.dumps` on a dict of strings with the default separators: entries in
insertion order, no key sorting (used on trees at core.py line 215 and 706). -/
def json_dumps_dict (d : List (String × String)) : String :=
  "\x7b" ++ ", ".intercalate (d.map (fun p => json_str p.1 ++ ": " ++ json_str p.2)) ++ "\x7d"

/-- Python dict insertion: assigning an existing key keeps its position and
replaces the value; a new key is appended. This is how `commit` builds the
tree from index lines (core.py lines 208-212). -/
def dict_insert (d : List (String × String)) (k v : String) :
    List (String × String) :=
  if d.any (fun p => p.1 == k) then
    d.map (fun p => if p.1 = k then (k, v) else p)
  else d ++ [(k, v)]

/-- A single quote character, used in the merge commit message. -/
def squote : String := String.singleton (Char.ofNat 39)

/-- The content built by `create_conflict_file` (core.py lines 752-758): the
literal conflict markers around the decoded current and other blob contents,
a missing side rendered as the empty string. -/
def conflict_file_content (cur other : Option String) (branchName : String) :
    String :=
  "<<<<<<< HEAD\n" ++ cur.getD "" ++ "\n=======\n" ++ other.getD "" ++
    "\n>>>>>>> " ++ branchName ++ "\n"

/-- `create_conflict_file` (core.py lines 738-760): decode each present side
through the blob store (`blobOf` maps a blob id to its decoded content),
build the marker content, store it as a blob and return its id (`hashFn`
models the composite `hash_object(content.encode(), 'blob')`). -/
def create_conflict_file (blobOf hashFn : String → String)
    (currentSha otherSha : Option String) (branchName : String) : String :=
  hashFn (conflict_file_content (currentSha.map blobOf) (otherSha.map blobOf)
    branchName)

/-- The per-file decision of `three_way_merge` (core.py lines 653-672).
The first component is the merged-tree assignment: `none` means no key is
written, `some v` means `merged_tree[file] = v` where `v` itself is the
(possibly absent, i.e. Python None) blob id. The second component records
whether the file was appended to the conflicts list. -/
def merge_file (blobOf hashFn : String → String) (branchName : String)
    (b c o : Option String) : Option (Option String) × Bool :=
  if c = o then (if c.isSome then some c else none, false)
  else if c = b then (some o, false)
  else if o = b then (some c, false)
  else (some (some (create_conflict_file blobOf hashFn c o branchName)), true)

/-- Deduplicate keeping first occurrences; fixes an iteration order for the
Python set union over the three key sets (core.py line 651). -/
def uniq_aux (seen : List String) : List String → List String
  | [] => []
  | x :: xs =>
    if seen.contains x then uniq_aux seen xs
    else x :: uniq_aux (x :: seen) xs

/-- `all_files` of `three_way_merge` (core.py line 651): the union of the key
sets of the three trees. -/
def all_files (baseT curT otherT : List (String × String)) : List String :=
  uniq_aux [] (baseT.map Prod.fst ++ curT.map Prod.fst ++ otherT.map Prod.fst)

/-- The merged tree built by the loop of `three_way_merge` (core.py lines
653-672). -/
def merged_tree_of (baseT curT otherT : List (String × String))
    (blobOf hashFn : String → String) (branchName : String) :
    List (String × Option String) :=
  (all_files baseT curT otherT).filterMap (fun f =>
    ((merge_file blobOf hashFn branchName (baseT.lookup f) (curT.lookup f)
      (otherT.lookup f)).1).map (fun v => (f, v)))

/-- The conflicts list built by the loop of `three_way_merge`. -/
def conflicts_of (baseT curT otherT : List (String × String))
    (blobOf hashFn : String → String) (branchName : String) : List String :=
  (all_files baseT curT otherT).filter (fun f =>
    (merge_file blobOf hashFn branchName (baseT.lookup f) (curT.lookup f)
      (otherT.lookup f)).2)

/-- Outcome of `three_way_merge` (core.py lines 674-677): either the conflict
path through `handle_merge_conflicts`, or a merge commit through
`create_merge_commit`. -/
inductive ThreeWayOutcome where
  | conflicted (conflicts : List String)
      (mergedTree : List (String × Option String))
  | committed (commit : CommitData)
      (mergedTree : List (String × Option String))
deriving DecidableEq

/-- A json value for a tree entry whose id may be Python None. -/
def json_opt_val : Option String → String
  | none => "null"
  | some s => json_str s

/-- `json.dumps` on a merged tree whose values may be None. -/
def json_dumps_opt_dict (d : List (String × Option String)) : String :=
  "\x7b" ++ ", ".intercalate (d.map (fun p => json_str p.1 ++ ": " ++ json_opt_val p.2)) ++ "\x7d"

/-- A json array of strings. -/
def json_list (l : List String) : String :=
  "[" ++ ", ".intercalate (l.map json_str) ++ "]"

/-- `json.dumps` of the merge commit dict in its insertion key order
(core.py lines 708-714). -/
def json_of_merge_commit (c : CommitData) : String :=
  "\x7b" ++ json_str "tree" ++ ": " ++ json_str c.tree ++ ", " ++
    json_str "parents" ++ ": " ++ json_list (c.parents.getD []) ++ ", " ++
    json_str "author" ++ ": " ++ json_str c.author ++ ", " ++
    json_str "timestamp" ++ ": " ++ json_str c.timestamp ++ ", " ++
    json_str "message" ++ ": " ++ json_str c.message ++ "\x7d"

/-- `three_way_merge` (core.py lines 632-677) over already decoded trees:
build the merged tree and the conflicts list, then either report the
conflicts (no commit) or create the merge commit. `hashFn` models the
composite string-level `hash_object(payload.encode(), kind)`. -/
def three_way_merge (currentCommit otherCommit : String)
    (baseT curT otherT : List (String × String)) (branchName : String)
    (blobOf hashFn : String → String) (author timestamp : String) :
    ThreeWayOutcome :=
  let mt := merged_tree_of baseT curT otherT blobOf hashFn branchName
  let cs := conflicts_of baseT curT otherT blobOf hashFn branchName
  if cs = [] then
    ThreeWayOutcome.committed
      (mk_merge_commit_data (hashFn (json_dumps_opt_dict mt)) currentCommit
        otherCommit author timestamp
        ("Merge branch " ++ squote ++ branchName ++ squote)) mt
  else ThreeWayOutcome.conflicted cs mt

/-- Commit objects created by the tail of `three_way_merge`: only
`create_merge_commit` creates one; `handle_merge_conflicts` creates none. -/
def merge_created_commits : ThreeWayOutcome → List CommitData
  | ThreeWayOutcome.conflicted _ _ => []
  | ThreeWayOutcome.committed c _ => [c]

/-- Ref files after the tail of `three_way_merge`: `handle_merge_conflicts`
(core.py lines 679-692) touches no refs; `create_merge_commit` updates HEAD
with the new commit id (core.py line 718). -/
def merge_ref_update (files : List (String × String))
    (hashFn : String → String) : ThreeWayOutcome → List (String × String)
  | ThreeWayOutcome.conflicted _ _ => files
  | ThreeWayOutcome.committed c _ =>
      update_ref files "HEAD" (hashFn (json_of_merge_commit c))

/-- The tree passed to `update_working_directory` by the tail of
`three_way_merge`: both branches materialize the merged tree (core.py lines
692 and 721). -/
def merge_workdir_update : ThreeWayOutcome → List (String × Option String)
  | ThreeWayOutcome.conflicted _ mt => mt
  | ThreeWayOutcome.committed _ mt => mt

/-! Theorems settling the claims. -/

/-- C1: the object store round-trip fails for every kind. `hash_object`
writes the header with no separator between the kind and the length, so
`read_object` cannot unpack the whitespace-split header into a kind and a
size: reading back an object just written errors instead of returning the
payload, for blobs, trees and commits alike. -/
theorem read_object_put_roundtrip_fails :
    read_stored_object (full_data "blob" (str_bytes "hi")) "blob" =
      Except.error "ValueError: not enough values to unpack" ∧
    read_stored_object (full_data "tree" (str_bytes "\x7b\x7d")) "tree" =
      Except.error "ValueError: not enough values to unpack" ∧
    read_stored_object (full_data "commit" (str_bytes "\x7b\x7d")) "commit" =
      Except.error "ValueError: not enough values to unpack" :=
  ⟨rfl, rfl, rfl⟩

/-- C2: `update_ref` with the name HEAD (as called by `commit`) writes the
commit id into the HEAD file itself. With HEAD symbolic to
refs/heads/master holding c0, advancing to c1 leaves the branch ref at c0,
stores c1 directly in HEAD, and HEAD is no longer symbolic. -/
theorem update_ref_head_writes_head_file :
    commit_advance_ref
        [("HEAD", "ref: refs/heads/master"), ("refs/heads/master", "c0")]
        "c1" =
      [("HEAD", "c1"), ("refs/heads/master", "c0")] ∧
    (commit_advance_ref
        [("HEAD", "ref: refs/heads/master"), ("refs/heads/master", "c0")]
        "c1").lookup "refs/heads/master" = some "c0" ∧
    get_ref (commit_advance_ref
        [("HEAD", "ref: refs/heads/master"), ("refs/heads/master", "c0")]
        "c1") 8 "HEAD" = some "c1" ∧
    ("c1".startsWith "ref: ") = false :=
  ⟨rfl, rfl, rfl, rfl⟩

/-- C3: on a repository with no prior index file, the index update of `add`
errors (the read-open of the missing index raises) instead of starting from
an empty index; with an existing empty index the same operation succeeds
with exactly the one new entry. -/
theorem add_missing_index_errors :
    add_update_index none "1111" "a.txt" =
      Except.error "Error adding file to index: FileNotFoundError" ∧
    add_update_index (some []) "1111" "a.txt" = Except.ok ["1111 a.txt"] :=
  ⟨rfl, rfl⟩

/-- C4: the stored bytes are not the canonical form claimed. For each kind,
the bytes `hash_object` hashes and stores differ from the spec form with a
single space between the kind and the decimal payload length. -/
theorem full_data_differs_from_spec_canonical :
    full_data "blob" (str_bytes "hi") ≠
      spec_canonical_bytes "blob" (str_bytes "hi") ∧
    full_data "tree" [] ≠ spec_canonical_bytes "tree" [] ∧
    full_data "commit" [] ≠ spec_canonical_bytes "commit" [] := by
  refine ⟨?_, ?_, ?_⟩ <;> decide

/-- C5: `find_merge_base` does not return the most recent common ancestor.
With a root commit r and a child a, the chains are reversed to oldest first,
so the first common element of the chains is r: `find_merge_base a a`
returns r, not a. -/
theorem find_merge_base_self_returns_root :
    find_merge_base
        [("r", mk_commit_data "t0" none "au" "ts" "m0"),
         ("a", mk_commit_data "t1" (some "r") "au" "ts" "m1")] 8 "a" "a" =
      some "r" ∧
    find_merge_base
        [("r", mk_commit_data "t0" none "au" "ts" "m0"),
         ("a", mk_commit_data "t1" (some "r") "au" "ts" "m1")] 8 "a" "a" ≠
      some "a" := by
  refine ⟨?_, ?_⟩ <;> decide

/-- C6: tree encoding is not canonical under map equality. The same mapping
inserted in the two orders gives permuted association lists (equal as maps),
yet `json.dumps` with no key sorting emits different strings, and therefore
the full stored tree bytes differ, giving different tree ids. -/
theorem tree_encoding_not_canonical :
    List.Perm (dict_insert (dict_insert [] "a.txt" "x1") "b.txt" "x2")
      (dict_insert (dict_insert [] "b.txt" "x2") "a.txt" "x1") ∧
    json_dumps_dict (dict_insert (dict_insert [] "a.txt" "x1") "b.txt" "x2") ≠
      json_dumps_dict (dict_insert (dict_insert [] "b.txt" "x2") "a.txt" "x1") ∧
    full_data "tree"
        (str_bytes (json_dumps_dict
          (dict_insert (dict_insert [] "a.txt" "x1") "b.txt" "x2"))) ≠
      full_data "tree"
        (str_bytes (json_dumps_dict
          (dict_insert (dict_insert [] "b.txt" "x2") "a.txt" "x1"))) := by
  refine ⟨?_, ?_, ?_⟩ <;> decide

/-- C7: re-adding a path with an embedded space appends a duplicate row. The
duplicate check compares `line.split()[1]` (the first whitespace token of the
path) with the full path, so the existing row is never matched and the index
ends with two rows for the same path. -/
theorem index_duplicate_for_spaced_path :
    upsert_lines (upsert_lines [] "1111" "a b.txt") "2222" "a b.txt" =
      ["1111 a b.txt", "2222 a b.txt"] ∧
    ((upsert_lines (upsert_lines [] "1111" "a b.txt") "2222" "a b.txt").filter
        (fun l => path_of_index_line l == "a b.txt")).length = 2 :=
  ⟨rfl, rfl⟩

/-- C8: deletion in a three-way merge is not an omission. When a path is
unchanged on one side and deleted on the other, the merged tree maps the
path to Python None instead of omitting it, in both directions. -/
theorem merge_deletion_maps_to_none :
    merged_tree_of [("a.txt", "x")] [("a.txt", "x")] []
        (fun s => s) (fun s => s) "feat" =
      [("a.txt", (none : Option String))] ∧
    merged_tree_of [("a.txt", "x")] [] [("a.txt", "x")]
        (fun s => s) (fun s => s) "feat" =
      [("a.txt", (none : Option String))] :=
  ⟨rfl, rfl⟩

/-- C9: a conflicting three-way merge creates no merge commit and updates no
ref: the outcome is the conflicted one carrying the conflicts and the merged
tree, the created-commits list is empty, the ref files are unchanged, the
merged tree is the one materialized into the working tree, every conflicting
file triple maps to a blob holding exactly the literal conflict markers, and
the marker content for current M, other F on branch feat is the literal
string of the spec. -/
theorem three_way_merge_conflict_behaviour
    (currentCommit otherCommit : String)
    (baseT curT otherT : List (String × String)) (branchName : String)
    (blobOf hashFn : String → String) (author timestamp : String)
    (files : List (String × String)) (b c o : Option String)
    (hconf : conflicts_of baseT curT otherT blobOf hashFn branchName ≠ [])
    (hbco : (merge_file blobOf hashFn branchName b c o).2 = true) :
    three_way_merge currentCommit otherCommit baseT curT otherT branchName
        blobOf hashFn author timestamp =
      ThreeWayOutcome.conflicted
        (conflicts_of baseT curT otherT blobOf hashFn branchName)
        (merged_tree_of baseT curT otherT blobOf hashFn branchName) ∧
    merge_created_commits (three_way_merge currentCommit otherCommit baseT
        curT otherT branchName blobOf hashFn author timestamp) = [] ∧
    merge_ref_update files hashFn (three_way_merge currentCommit otherCommit
        baseT curT otherT branchName blobOf hashFn author timestamp) = files ∧
    merge_workdir_update (three_way_merge currentCommit otherCommit baseT
        curT otherT branchName blobOf hashFn author timestamp) =
      merged_tree_of baseT curT otherT blobOf hashFn branchName ∧
    (merge_file blobOf hashFn branchName b c o).1 =
      some (some (hashFn (conflict_file_content (c.map blobOf) (o.map blobOf)
        branchName))) ∧
    conflict_file_content (some "M") (some "F") "feat" =
      "<<<<<<< HEAD\nM\n=======\nF\n>>>>>>> feat\n" := by
  have h3 : three_way_merge currentCommit otherCommit baseT curT otherT
      branchName blobOf hashFn author timestamp =
      ThreeWayOutcome.conflicted
        (conflicts_of baseT curT otherT blobOf hashFn branchName)
        (merged_tree_of baseT curT otherT blobOf hashFn branchName) := by
    simp [three_way_merge, hconf]
  refine ⟨h3, ?_, ?_, ?_, ?_, rfl⟩
  · rw [h3]; rfl
  · rw [h3]; rfl
  · rw [h3]; rfl
  · unfold merge_file at hbco ⊢
    split_ifs at hbco ⊢
    all_goals simp_all [create_conflict_file]

/-- Witness for C9 at a concrete conflicting input: base, current and other
trees all hold a.txt with pairwise different blob ids, branch feat, identity
blob decoding and hashing. -/
theorem three_way_merge_conflict_behaviour_witness :
    (conflicts_of [("a.txt", "bx")] [("a.txt", "by")] [("a.txt", "bz")]
        (fun s => s) (fun s => s) "feat" ≠ [] ∧
     (merge_file (fun s => s) (fun s => s) "feat" (some "bx") (some "by")
        (some "bz")).2 = true) ∧
    (three_way_merge "cc" "oc" [("a.txt", "bx")] [("a.txt", "by")]
        [("a.txt", "bz")] "feat" (fun s => s) (fun s => s) "au" "ts" =
      ThreeWayOutcome.conflicted
        (conflicts_of [("a.txt", "bx")] [("a.txt", "by")] [("a.txt", "bz")]
          (fun s => s) (fun s => s) "feat")
        (merged_tree_of [("a.txt", "bx")] [("a.txt", "by")] [("a.txt", "bz")]
          (fun s => s) (fun s => s) "feat") ∧
     merge_created_commits (three_way_merge "cc" "oc" [("a.txt", "bx")]
        [("a.txt", "by")] [("a.txt", "bz")] "feat" (fun s => s) (fun s => s)
        "au" "ts") = [] ∧
     merge_ref_update [("HEAD", "ref: refs/heads/master")] (fun s => s)
        (three_way_merge "cc" "oc" [("a.txt", "bx")] [("a.txt", "by")]
          [("a.txt", "bz")] "feat" (fun s => s) (fun s => s) "au" "ts") =
        [("HEAD", "ref: refs/heads/master")] ∧
     merge_workdir_update (three_way_merge "cc" "oc" [("a.txt", "bx")]
        [("a.txt", "by")] [("a.txt", "bz")] "feat" (fun s => s) (fun s => s)
        "au" "ts") =
       merged_tree_of [("a.txt", "bx")] [("a.txt", "by")] [("a.txt", "bz")]
         (fun s => s) (fun s => s) "feat" ∧
     (merge_file (fun s => s) (fun s => s) "feat" (some "bx") (some "by")
        (some "bz")).1 =
       some (some ((fun s => s) (conflict_file_content
         (Option.map (fun s => s) (some "by"))
         (Option.map (fun s => s) (some "bz")) "feat"))) ∧
     conflict_file_content (some "M") (some "F") "feat" =
       "<<<<<<< HEAD\nM\n=======\nF\n>>>>>>> feat\n") :=
  ⟨⟨by decide, by decide⟩,
   three_way_merge_conflict_behaviour "cc" "oc" [("a.txt", "bx")]
     [("a.txt", "by")] [("a.txt", "bz")] "feat" (fun s => s) (fun s => s)
     "au" "ts" [("HEAD", "ref: refs/heads/master")] (some "bx") (some "by")
     (some "bz") (by decide) (by decide)⟩

/-- C10: a merge commit stops history traversal. Merge commits are created
with only the `parents` key, while the traversal shared by
`get_commit_chain`, `log` and hence `find_merge_base` reads only the
`parent` key; therefore for any store in which an id holds a merge commit,
the chain from that id is just the id itself and `log` visits only it. -/
theorem merge_commit_chain_stops (store : List (String × CommitData))
    (id cur other tr au ts msg : String) (fuel : Nat) (hf : fuel ≠ 0)
    (h : store.lookup id = some (mk_merge_commit_data tr cur other au ts msg)) :
    get_commit_chain store fuel id = [id] ∧
    log_visits store fuel id = [id] := by
  obtain ⟨f, rfl⟩ : ∃ f, fuel = f + 1 :=
    ⟨fuel - 1, (Nat.succ_pred_eq_of_pos (Nat.pos_of_ne_zero hf)).symm⟩
  have hp : parent_of store id = none := by
    simp [parent_of, h, mk_merge_commit_data]
  have hloop : chain_loop store (f + 1) (some id) = [id] := by
    cases f <;> simp [chain_loop, hp]
  exact ⟨by simp [get_commit_chain, hloop], by simpa [log_visits] using hloop⟩

/-- Witness for C10 at a concrete store holding one merge commit. -/
theorem merge_commit_chain_stops_witness :
    ((5 : Nat) ≠ 0 ∧
     List.lookup "m"
        [("m", mk_merge_commit_data "t" "c1" "c2" "au" "ts" "mm")] =
       some (mk_merge_commit_data "t" "c1" "c2" "au" "ts" "mm")) ∧
    (get_commit_chain
        [("m", mk_merge_commit_data "t" "c1" "c2" "au" "ts" "mm")] 5 "m" =
       ["m"] ∧
     log_visits
        [("m", mk_merge_commit_data "t" "c1" "c2" "au" "ts" "mm")] 5 "m" =
       ["m"]) :=
  ⟨⟨by decide, by decide⟩,
   merge_commit_chain_stops
     [("m", mk_merge_commit_data "t" "c1" "c2" "au" "ts" "mm")]
     "m" "c1" "c2" "t" "au" "ts" "mm" 5 (by decide) (by decide)⟩
